import Mathlib

/-!
# pihole-stats: a shallow embedding of `main.go`

The program polls the Pi-hole admin API and forwards fourteen counters to
InfluxDB.  This file embeds `newConfig`, `Config.getStats`,
`Config.influxWrite`, `collectStats` and `main` as Lean functions and proves
properties of them.

Modelling conventions.

* Everything outside `main.go` (the `.env` loader, the environment helpers,
  `net/http`, `encoding/json`, the InfluxDB client and the clock) is consulted
  through the fields of a `World`: one field per library call made by the
  source, giving the result that call has in the run under consideration.
* Every function returns the list of library calls it made (`Event`s, oldest
  first) next to its result, so that "X is never called" is a statement about
  that list.
* Diagnostic output (`log.Println`, `fmt.Println`) is not part of the model.
* A Go `float64` produced by the JSON decoder is modelled by the rational
  number it denotes (JSON has no NaN or infinity); the program never computes
  with these values, it only moves them.
* `time.Duration` is a count of nanoseconds.
-/

namespace PiholeStats

/-! ## Plain data -/

/-- A Go byte slice. -/
abbrev Bytes := List UInt8

/-- An `error` value, identified by its message. -/
abbrev Error := String

/-- A `float64` held in a decoded JSON document. -/
abbrev Float64 := Rat

/-- A `time.Duration`: nanoseconds. -/
abbrev Duration := Int

/-- A `time.Time` in UTC: nanoseconds since the Unix epoch. -/
abbrev Time := Int

/-- The constant `time.Second`. -/
def Second : Duration := 1000000000

/-- Pihole host and access settings (`type PiholeConfig struct`). -/
structure PiholeConfig where
  Host : String
  Port : String
  APIRoute : String
  URLScheme : String
  URL : String
  deriving DecidableEq, Repr

/-- InfluxDB host and access settings (`type InfluxDBConfig struct`). -/
structure InfluxDBConfig where
  Host : String
  Port : String
  Username : String
  Password : String
  DbName : String
  Measurement : String
  RetentionPolicy : String
  URLScheme : String
  URL : String
  deriving DecidableEq, Repr

/-- The part of `http.Transport` the source sets: `TLSClientConfig.InsecureSkipVerify`. -/
structure Transport where
  InsecureSkipVerify : Bool
  deriving DecidableEq, Repr

/-- The `http.Client` value.  `Timeout` is the struct field of that name; Go's
zero value `0` means that requests made through the client have no time limit. -/
structure HttpClient where
  Transport : Transport
  Timeout : Duration
  deriving DecidableEq, Repr

/-- Application settings (`type Config struct`). -/
structure Config where
  InfluxDB : InfluxDBConfig
  Pihole : PiholeConfig
  Hostname : String
  MetricDelay : Int
  RequestTimeout : Int
  Request : HttpClient
  deriving DecidableEq, Repr

/-! ## Values of the libraries -/

/-- A value of type `interface{}` as produced by `encoding/json`. -/
inductive JValue where
  | nil : JValue
  | bool : Bool → JValue
  | number : Float64 → JValue
  | string : String → JValue
  | array : List JValue → JValue
  | object : List (String × JValue) → JValue

/-- A `map[string]interface{}`; the nil map is the empty list. -/
abbrev GoMap := List (String × JValue)

/-- The dynamic type found by a failed type assertion. -/
inductive Kind where
  | nil | bool | float64 | string | slice | map
  deriving DecidableEq, Repr

/-- Dynamic type of an `interface{}` value. -/
def JValue.kind : JValue → Kind
  | .nil => .nil
  | .bool _ => .bool
  | .number _ => .float64
  | .string _ => .string
  | .array _ => .slice
  | .object _ => .map

/-- A run-time panic. -/
inductive Fault where
  /-- Failed single-value type assertion `x.(float64)`; carries the dynamic type of `x`. -/
  | interfaceConversion : Kind → Fault
  /-- Method call on a nil interface value. -/
  | nilDereference : Fault
  deriving DecidableEq, Repr

/-- What `json.NewDecoder(r).Decode(&data)` does with a payload when `data` is a
nil `map[string]interface{}`. -/
inductive Decoded where
  /-- The input does not start with a JSON value: a syntax error is returned, `data` stays nil. -/
  | malformed : Decoded
  /-- A JSON value that is neither an object nor `null`: a type error is returned, `data` stays nil. -/
  | notAnObject : Decoded
  /-- The JSON value `null`: no error, `data` stays nil. -/
  | null : Decoded
  /-- A JSON object: `data` becomes the decoded map. -/
  | object : GoMap → Decoded

/-- The map held by `data` after the `Decode` call. -/
def Decoded.data : Decoded → GoMap
  | .object m => m
  | _ => []

/-- The `client.HTTPConfig` literal built by `influxWrite`. -/
structure HTTPConfig where
  Addr : String
  Username : String
  Password : String
  Timeout : Duration
  deriving DecidableEq, Repr

/-- The `client.BatchPointsConfig` struct of the InfluxDB client. -/
structure BatchPointsConfig where
  Precision : String
  Database : String
  RetentionPolicy : String
  WriteConsistency : String
  deriving DecidableEq, Repr

/-- Tag set of a point. -/
abbrev Tags := List (String × String)

/-- Field set of a point, in the order of the source's map literal. -/
abbrev Fields := List (String × Float64)

/-- A point as passed to `client.NewPoint`. -/
structure Point where
  name : String
  tags : Tags
  fields : Fields
  time : Time
  deriving DecidableEq

/-- A batch: its configuration and the points added to it. -/
structure BatchPoints where
  config : BatchPointsConfig
  points : List Point
  deriving DecidableEq

/-- Outcome of `c.Request.Get(url)` followed by `ioutil.ReadAll(resp.Body)`. -/
inductive GetResult where
  /-- `Get` returned an error (timeout, connection refused, ...). -/
  | failed : Error → GetResult
  /-- `Get` returned a response with this status code; `ReadAll` gave these
  bytes and possibly an error. -/
  | response : Nat → Bytes → Option Error → GetResult

/-- The results of the library calls in one run. -/
structure World where
  /-- `godotenv.Load()`; `none` is success. -/
  dotenvLoad : Option Error
  /-- `os.Hostname()`. -/
  osHostname : String
  /-- `enviro.Get(key, fallback)`. -/
  enviroGet : String → String → String
  /-- `enviro.GetInt(key, fallback)`. -/
  enviroGetInt : String → Int → Int
  /-- `client.Get(url)` and the read of the response body. -/
  httpGet : HttpClient → String → GetResult
  /-- `json.NewDecoder(bytes.NewReader(payload)).Decode(&data)`. -/
  jsonDecode : Bytes → Decoded
  /-- `client.NewHTTPClient(config)`; `none` is success. -/
  newHTTPClient : HTTPConfig → Option Error
  /-- `con.Ping(timeout)`; `none` is success. -/
  ping : Duration → Option Error
  /-- `client.NewBatchPoints(config)`; `none` is success. -/
  newBatchPoints : BatchPointsConfig → Option Error
  /-- `client.NewPoint(name, tags, fields, t)`; `none` is success. -/
  newPoint : Point → Option Error
  /-- `con.Write(bp)`; `none` is success. -/
  write : BatchPoints → Option Error
  /-- `time.Now().UTC()`. -/
  now : Time

/-- A library call with an effect outside the process. -/
inductive Event where
  | dotenvLoad : Event
  | httpGet : String → Event
  | bodyClose : Event
  | newHTTPClient : HTTPConfig → Event
  | ping : Duration → Event
  | newBatchPoints : BatchPointsConfig → Event
  | newPoint : Point → Event
  | write : BatchPoints → Event
  | close : Event
  deriving DecidableEq

/-- The calls that touch the sink (everything made by `influxWrite`). -/
def Event.isSink : Event → Bool
  | .newHTTPClient _ => true
  | .ping _ => true
  | .newBatchPoints _ => true
  | .newPoint _ => true
  | .write _ => true
  | .close => true
  | _ => false

/-- Is the event a `NewPoint` call. -/
def Event.isNewPoint : Event → Bool
  | .newPoint _ => true
  | _ => false

/-- Is the event a `con.Write` call. -/
def Event.isWrite : Event → Bool
  | .write _ => true
  | _ => false

/-! ## `newConfig` -/

/-- The function `newConfig`.  `log.Fatalf` ends the process, which is the
`Except.error` result. -/
def newConfig (w : World) : Except Error Config :=
  match w.dotenvLoad with
  | some err => .error err
  | none =>
    let transCfg : Transport := { InsecureSkipVerify := true }
    let systemHostname := w.osHostname
    let hostname := w.enviroGet "METRIC_HOSTNAME" systemHostname
    let influxScheme := w.enviroGet "INFLUXDB_URL_SCHEME" "https"
    let influxHost := w.enviroGet "INFLUXDB_HOST" "localhost"
    let influxPort := w.enviroGet "INFLUXDB_PORT" "8086"
    let piholeScheme := w.enviroGet "PIHOLE_URL_SCHEME" "https"
    let piholeHost := w.enviroGet "PIHOLE_HOST" "localhost"
    let piholePort := w.enviroGet "PIHOLE_PORT" "8080"
    .ok {
      InfluxDB := {
        Host := influxHost
        Port := influxPort
        Username := w.enviroGet "INFLUXDB_USERNAME" "telegraf"
        Password := w.enviroGet "INFLUXDB_PASSWORD" "telegraf"
        DbName := w.enviroGet "INFLUXDB_DATABASE" "telegraf"
        Measurement := w.enviroGet "INFLUXDB_MEASUREMENT" "pihole"
        RetentionPolicy := w.enviroGet "INFLUXDB_RETENTION_POLICY" ""
        URLScheme := influxScheme
        URL := influxScheme ++ "://" ++ influxHost ++ ":" ++ influxPort }
      Pihole := {
        Host := piholeHost
        Port := piholePort
        APIRoute := w.enviroGet "PIHOLE_API_ROUTE" ""
        URLScheme := piholeScheme
        URL := piholeScheme ++ "://" ++ piholeHost ++ ":" ++ piholePort }
      Hostname := hostname
      MetricDelay := w.enviroGetInt "METRIC_DELAY" 10
      RequestTimeout := w.enviroGetInt "REQUEST_TIMEOUT" 15
      Request := { Transport := transCfg, Timeout := 0 } }

/-! ## `getStats` -/

/-- Calls made by `getStats` and the byte slice it returned. -/
structure Fetch where
  trace : List Event
  body : Bytes

/-- The method `Config.getStats`: the body on success, the empty slice when the
request or the read of the body fails. -/
def Config.getStats (c : Config) (w : World) : Fetch :=
  let url := c.Pihole.URL ++ c.Pihole.APIRoute
  match w.httpGet c.Request url with
  | .failed _ => { trace := [.httpGet url], body := [] }
  | .response _ body readErr =>
    match readErr with
    | some _ => { trace := [.httpGet url, .bodyClose], body := [] }
    | none => { trace := [.httpGet url, .bodyClose], body := body }

/-! ## `influxWrite` -/

/-- The way a call of `influxWrite` ends. -/
inductive Result where
  /-- The function returned this `error` (`none` is `nil`). -/
  | returned : Option Error → Result
  /-- The function did not return: it panicked. -/
  | panicked : Fault → Result
  deriving DecidableEq

/-- Calls made by `influxWrite` and the way it ended. -/
structure Run where
  trace : List Event
  result : Result
  deriving DecidableEq

/-- Map indexing `data[key]`: the zero value (nil interface) when the key is absent. -/
def GoMap.index (data : GoMap) (key : String) : JValue :=
  match List.lookup key data with
  | some v => v
  | none => .nil

/-- The type assertion `v.(float64)` in its single-value form. -/
def assertFloat64 : JValue → Except Fault Float64
  | .number x => .ok x
  | v => .error (.interfaceConversion v.kind)

/-- The `fields` map literal of `influxWrite`, entries evaluated top to bottom. -/
def fields (data : GoMap) : Except Fault Fields := do
  let v0 ← assertFloat64 (data.index "ads_percentage_today")
  let v1 ← assertFloat64 (data.index "ads_blocked_today")
  let v2 ← assertFloat64 (data.index "clients_ever_seen")
  let v3 ← assertFloat64 (data.index "domains_being_blocked")
  let v4 ← assertFloat64 (data.index "dns_queries_today")
  let v5 ← assertFloat64 (data.index "dns_queries_all_types")
  let v6 ← assertFloat64 (data.index "queries_forwarded")
  let v7 ← assertFloat64 (data.index "queries_cached")
  let v8 ← assertFloat64 (data.index "reply_CNAME")
  let v9 ← assertFloat64 (data.index "reply_IP")
  let v10 ← assertFloat64 (data.index "reply_NODATA")
  let v11 ← assertFloat64 (data.index "reply_NXDOMAIN")
  let v12 ← assertFloat64 (data.index "unique_clients")
  let v13 ← assertFloat64 (data.index "unique_domains")
  pure [
    ("ads_percentage_today", v0),
    ("ads_blocked_today", v1),
    ("clients_ever_seen", v2),
    ("domains_blocked", v3),
    ("dns_queries_today", v4),
    ("dns_queries_all_types", v5),
    ("queries_forwarded", v6),
    ("queries_cached", v7),
    ("reply_CNAME", v8),
    ("reply_IP", v9),
    ("reply_NODATA", v10),
    ("reply_NXDOMAIN", v11),
    ("unique_clients", v12),
    ("unique_domains", v13)]

/-- The `client.HTTPConfig` literal at the top of `influxWrite`. -/
def Config.httpConfig (c : Config) : HTTPConfig :=
  { Addr := c.InfluxDB.URL
    Username := c.InfluxDB.Username
    Password := c.InfluxDB.Password
    Timeout := c.Request.Timeout }

/-- The `client.BatchPointsConfig` literal of `influxWrite`; the fields the
literal does not mention have Go's zero value. -/
def Config.batchPointsConfig (c : Config) : BatchPointsConfig :=
  { Database := c.InfluxDB.DbName
    Precision := "s"
    RetentionPolicy := ""
    WriteConsistency := "" }

/-- The part of `influxWrite` after `defer con.Close()`, for a non-nil `con`. -/
def Config.influxWriteBody (c : Config) (w : World) (payload : Bytes) : Run :=
  -- Ensure connectivity to InfluxDB
  match w.ping c.Request.Timeout with
  | some err => { trace := [.ping c.Request.Timeout], result := .returned (some err) }
  | none =>
    -- Convert the byte array to a map; the error of Decode is dropped
    let data := (w.jsonDecode payload).data
    match w.newBatchPoints c.batchPointsConfig with
    | some err =>
      { trace := [.ping c.Request.Timeout, .newBatchPoints c.batchPointsConfig],
        result := .returned (some err) }
    | none =>
      -- Craft and send measurement
      let tags : Tags := [("host", c.Hostname)]
      match fields data with
      | .error fault =>
        { trace := [.ping c.Request.Timeout, .newBatchPoints c.batchPointsConfig],
          result := .panicked fault }
      | .ok fs =>
        let pt : Point := { name := c.InfluxDB.Measurement, tags := tags, fields := fs, time := w.now }
        match w.newPoint pt with
        | some err =>
          { trace := [.ping c.Request.Timeout, .newBatchPoints c.batchPointsConfig, .newPoint pt],
            result := .returned (some err) }
        | none =>
          let bp : BatchPoints := { config := c.batchPointsConfig, points := [pt] }
          { trace := [.ping c.Request.Timeout, .newBatchPoints c.batchPointsConfig,
                      .newPoint pt, .write bp],
            result := .returned (w.write bp) }

/-- The method `Config.influxWrite`.  When `NewHTTPClient` fails its error is
discarded and `con` is the nil interface, so using `con` panics.  Otherwise the
deferred `con.Close()` runs when the body is left, by return or by panic. -/
def Config.influxWrite (c : Config) (w : World) (payload : Bytes) : Run :=
  match w.newHTTPClient c.httpConfig with
  | some _ => { trace := [.newHTTPClient c.httpConfig], result := .panicked .nilDereference }
  | none =>
    let r := c.influxWriteBody w payload
    { trace := .newHTTPClient c.httpConfig :: r.trace ++ [.close], result := r.result }

/-! ## `collectStats` and `main` -/

/-- The way one call of `collectStats` ends. -/
inductive CycleEnd where
  /-- The function returned. -/
  | done : CycleEnd
  /-- `log.Fatalf` in `newConfig` ended the process. -/
  | fatal : Error → CycleEnd
  /-- A panic left the function. -/
  | panicked : Fault → CycleEnd
  deriving DecidableEq

/-- Calls made by one `collectStats` call and the way it ended. -/
structure Cycle where
  trace : List Event
  outcome : CycleEnd
  deriving DecidableEq

/-- The function `collectStats`; the value returned by `influxWrite` is discarded. -/
def collectStats (w : World) : Cycle :=
  match newConfig w with
  | .error err => { trace := [.dotenvLoad], outcome := .fatal err }
  | .ok pihole =>
    let stats := pihole.getStats w
    if stats.body.length ≠ 0 then
      let r := pihole.influxWrite w stats.body
      { trace := .dotenvLoad :: stats.trace ++ r.trace,
        outcome := match r.result with
          | .returned _ => .done
          | .panicked f => .panicked f }
    else
      { trace := .dotenvLoad :: stats.trace, outcome := .done }

/-- The way the process ends. -/
inductive Exit where
  /-- Interrupt signal received, `worker.Stop()` called, `main` returned. -/
  | interrupted : Exit
  /-- `log.Fatalf` ended the process. -/
  | fatal : Error → Exit
  /-- An unrecovered panic ended the process. -/
  | crashed : Fault → Exit
  deriving DecidableEq

/-- Calls made by the whole process and the way it ended. -/
structure Process where
  trace : List Event
  exit : Exit
  deriving DecidableEq

/-- The job loop of the scheduler: `collectStats` is called once per tick, each
tick with the `World` current at that time, until the ticks run out (the
interrupt) or a cycle ends the process.  `recovers` says whether the scheduler
library recovers a panic raised by the job. -/
def runCycles (recovers : Bool) : List World → Process
  | [] => { trace := [], exit := .interrupted }
  | w :: ticks =>
    let cyc := collectStats w
    match cyc.outcome with
    | .fatal err => { trace := cyc.trace, exit := .fatal err }
    | .panicked f =>
      if recovers then
        let rest := runCycles recovers ticks
        { trace := cyc.trace ++ rest.trace, exit := rest.exit }
      else
        { trace := cyc.trace, exit := .crashed f }
    | .done =>
      let rest := runCycles recovers ticks
      { trace := cyc.trace ++ rest.trace, exit := rest.exit }

/-- The function `main`: resolve the configuration, then hand `collectStats`
(which takes no configuration argument) to the scheduler.  The resolved
`MetricDelay` only sets the pace of the ticks, which the list of worlds
abstracts. -/
def main (recovers : Bool) (w0 : World) (ticks : List World) : Process :=
  match newConfig w0 with
  | .error err => { trace := [.dotenvLoad], exit := .fatal err }
  | .ok _ =>
    let rest := runCycles recovers ticks
    { trace := .dotenvLoad :: rest.trace, exit := rest.exit }

/-! ## Vocabulary of the statements -/

/-- The keys read from the decoded payload by the `fields` literal, top to bottom. -/
def sourceKeys : List String :=
  ["ads_percentage_today", "ads_blocked_today", "clients_ever_seen", "domains_being_blocked",
   "dns_queries_today", "dns_queries_all_types", "queries_forwarded", "queries_cached",
   "reply_CNAME", "reply_IP", "reply_NODATA", "reply_NXDOMAIN", "unique_clients",
   "unique_domains"]

/-- The key under which the `fields` literal stores the value read at a source key. -/
def sinkName (key : String) : String :=
  if key = "domains_being_blocked" then "domains_blocked" else key

/-- The URL requested by `getStats`. -/
def Config.statsURL (c : Config) : String := c.Pihole.URL ++ c.Pihole.APIRoute

/-- The point `influxWrite` builds from a field set. -/
def Config.point (c : Config) (w : World) (fs : Fields) : Point :=
  { name := c.InfluxDB.Measurement, tags := [("host", c.Hostname)], fields := fs, time := w.now }

/-- A decoded payload has every required key with a numeric value. -/
def Numeric (m : GoMap) : Prop := ∀ k ∈ sourceKeys, (m.index k).kind = .float64

instance (m : GoMap) : Decidable (Numeric m) := by
  unfold Numeric
  infer_instance

/-- The number a decoded payload holds at a key (zero when it holds no number there). -/
def valueAt (m : GoMap) (key : String) : Float64 :=
  match m.index key with
  | .number x => x
  | _ => 0

/-! ## Concrete runs -/

set_option maxRecDepth 8000

/-- The decoded form of the end-to-end payload of the specification. -/
def e2eData : GoMap :=
  [("ads_percentage_today", .number 12.5), ("ads_blocked_today", .number 100),
   ("clients_ever_seen", .number 5), ("domains_being_blocked", .number 50000),
   ("dns_queries_today", .number 800), ("dns_queries_all_types", .number 820),
   ("queries_forwarded", .number 400), ("queries_cached", .number 300),
   ("reply_CNAME", .number 10), ("reply_IP", .number 200), ("reply_NODATA", .number 5),
   ("reply_NXDOMAIN", .number 3), ("unique_clients", .number 5), ("unique_domains", .number 120)]

/-- The field set expected by the end-to-end scenario. -/
def e2eFields : Fields :=
  [("ads_percentage_today", 12.5), ("ads_blocked_today", 100), ("clients_ever_seen", 5),
   ("domains_blocked", 50000), ("dns_queries_today", 800), ("dns_queries_all_types", 820),
   ("queries_forwarded", 400), ("queries_cached", 300), ("reply_CNAME", 10), ("reply_IP", 200),
   ("reply_NODATA", 5), ("reply_NXDOMAIN", 3), ("unique_clients", 5), ("unique_domains", 120)]

/-- The bytes of the end-to-end payload of the specification (ASCII, 323 bytes,
from the opening brace to the closing brace). -/
def e2ePayload : Bytes :=
  [123, 34, 97, 100, 115, 95, 112, 101, 114, 99, 101, 110, 116, 97, 103, 101, 95, 116, 111,
   100, 97, 121, 34, 58, 49, 50, 46, 53, 44, 32, 34, 97, 100, 115, 95, 98, 108, 111, 99, 107,
   101, 100, 95, 116, 111, 100, 97, 121, 34, 58, 49, 48, 48, 44, 32, 34, 99, 108, 105, 101,
   110, 116, 115, 95, 101, 118, 101, 114, 95, 115, 101, 101, 110, 34, 58, 53, 44, 32, 34, 100,
   111, 109, 97, 105, 110, 115, 95, 98, 101, 105, 110, 103, 95, 98, 108, 111, 99, 107, 101,
   100, 34, 58, 53, 48, 48, 48, 48, 44, 32, 34, 100, 110, 115, 95, 113, 117, 101, 114, 105,
   101, 115, 95, 116, 111, 100, 97, 121, 34, 58, 56, 48, 48, 44, 32, 34, 100, 110, 115, 95,
   113, 117, 101, 114, 105, 101, 115, 95, 97, 108, 108, 95, 116, 121, 112, 101, 115, 34, 58,
   56, 50, 48, 44, 32, 34, 113, 117, 101, 114, 105, 101, 115, 95, 102, 111, 114, 119, 97, 114,
   100, 101, 100, 34, 58, 52, 48, 48, 44, 32, 34, 113, 117, 101, 114, 105, 101, 115, 95, 99,
   97, 99, 104, 101, 100, 34, 58, 51, 48, 48, 44, 32, 34, 114, 101, 112, 108, 121, 95, 67, 78,
   65, 77, 69, 34, 58, 49, 48, 44, 32, 34, 114, 101, 112, 108, 121, 95, 73, 80, 34, 58, 50, 48,
   48, 44, 32, 34, 114, 101, 112, 108, 121, 95, 78, 79, 68, 65, 84, 65, 34, 58, 53, 44, 32, 34,
   114, 101, 112, 108, 121, 95, 78, 88, 68, 79, 77, 65, 73, 78, 34, 58, 51, 44, 32, 34, 117,
   110, 105, 113, 117, 101, 95, 99, 108, 105, 101, 110, 116, 115, 34, 58, 53, 44, 32, 34, 117,
   110, 105, 113, 117, 101, 95, 100, 111, 109, 97, 105, 110, 115, 34, 58, 49, 50, 48, 125]

/-- The two bytes of the empty JSON object. -/
def emptyObjectPayload : Bytes := [123, 125]

/-- The bytes of the start of an HTML page: not JSON. -/
def htmlPayload : Bytes := [60, 104, 116, 109, 108, 62]

/-- The decoder on the three payloads above; anything else is taken as malformed. -/
def sampleDecode (payload : Bytes) : Decoded :=
  if payload = e2ePayload then .object e2eData
  else if payload = emptyObjectPayload then .object []
  else .malformed

/-- A world in which the `.env` file loads, no variable is set (every
`enviro` call returns its fallback), the source refuses the connection and the
sink accepts everything. -/
def quietWorld : World :=
  { dotenvLoad := none
    osHostname := "sensor1"
    enviroGet := fun _ fallback => fallback
    enviroGetInt := fun _ fallback => fallback
    httpGet := fun _ _ => .failed "connection refused"
    jsonDecode := sampleDecode
    newHTTPClient := fun _ => none
    ping := fun _ => none
    newBatchPoints := fun _ => none
    newPoint := fun _ => none
    write := fun _ => none
    now := 1700000000000000000 }

/-- The configuration `newConfig` resolves in `quietWorld`. -/
def quietConfig : Config :=
  { InfluxDB := {
      Host := "localhost", Port := "8086", Username := "telegraf", Password := "telegraf",
      DbName := "telegraf", Measurement := "pihole", RetentionPolicy := "",
      URLScheme := "https", URL := "https://localhost:8086" }
    Pihole := {
      Host := "localhost", Port := "8080", APIRoute := "", URLScheme := "https",
      URL := "https://localhost:8080" }
    Hostname := "sensor1"
    MetricDelay := 10
    RequestTimeout := 15
    Request := { Transport := { InsecureSkipVerify := true }, Timeout := 0 } }

/-- The source answers 200 with the end-to-end payload. -/
def e2eWorld : World :=
  { quietWorld with
    httpGet := fun _ _ => .response 200 e2ePayload none
    jsonDecode := sampleDecode }

/-- The source answers 200 with the empty object, which lacks every required key. -/
def emptyObjectWorld : World :=
  { quietWorld with
    httpGet := fun _ _ => .response 200 emptyObjectPayload none
    jsonDecode := sampleDecode }

/-- The source answers 500, with a body that decodes to the end-to-end object. -/
def serverErrorWorld : World :=
  { e2eWorld with httpGet := fun _ _ => .response 500 e2ePayload none }

/-- The source answers 200 with an HTML body, which the decoder rejects. -/
def malformedWorld : World :=
  { quietWorld with
    httpGet := fun _ _ => .response 200 htmlPayload none
    jsonDecode := sampleDecode }

/-- The end-to-end run against a client library whose `NewPoint` rejects a point
without fields and accepts every other point. -/
def strictSinkWorld : World :=
  { e2eWorld with
    newPoint := fun pt =>
      if pt.fields.isEmpty then some "point without fields is unsupported" else none }

/-- The sink does not answer the liveness check. -/
def sinkDownWorld : World :=
  { e2eWorld with ping := fun _ => some "connection refused" }

/-- The environment now names another Pi-hole host. -/
def movedWorld : World :=
  { quietWorld with
    enviroGet := fun key fallback => if key = "PIHOLE_HOST" then "pi.hole" else fallback }

/-- The `.env` file has disappeared. -/
def brokenEnvWorld : World :=
  { e2eWorld with dotenvLoad := some "open .env: no such file or directory" }

/-! ## Lemmas on the `fields` literal -/

theorem kind_eq_float64 {v : JValue} (h : v.kind = .float64) : ∃ x, v = .number x := by
  cases v <;> simp [JValue.kind] at h
  exact ⟨_, rfl⟩

theorem assertFloat64_eq_ok {v : JValue} {x : Float64} (h : assertFloat64 v = .ok x) :
    v = .number x := by
  cases v <;> simp [assertFloat64] at h
  subst h; rfl

theorem except_bind_eq_ok {ε α β : Type} {a : Except ε α} {f : α → Except ε β} {y : β}
    (h : (a >>= f) = .ok y) : ∃ x, a = .ok x ∧ f x = .ok y := by
  cases a with
  | error e => cases h
  | ok x => exact ⟨x, rfl, h⟩

/-- When the literal evaluates without panic, every required key held a number. -/
theorem numeric_of_fields_ok {m : GoMap} {fs : Fields} (h : fields m = .ok fs) : Numeric m := by
  unfold fields at h
  obtain ⟨v0, h0, h⟩ := except_bind_eq_ok h
  obtain ⟨v1, h1, h⟩ := except_bind_eq_ok h
  obtain ⟨v2, h2, h⟩ := except_bind_eq_ok h
  obtain ⟨v3, h3, h⟩ := except_bind_eq_ok h
  obtain ⟨v4, h4, h⟩ := except_bind_eq_ok h
  obtain ⟨v5, h5, h⟩ := except_bind_eq_ok h
  obtain ⟨v6, h6, h⟩ := except_bind_eq_ok h
  obtain ⟨v7, h7, h⟩ := except_bind_eq_ok h
  obtain ⟨v8, h8, h⟩ := except_bind_eq_ok h
  obtain ⟨v9, h9, h⟩ := except_bind_eq_ok h
  obtain ⟨v10, h10, h⟩ := except_bind_eq_ok h
  obtain ⟨v11, h11, h⟩ := except_bind_eq_ok h
  obtain ⟨v12, h12, h⟩ := except_bind_eq_ok h
  obtain ⟨v13, h13, h⟩ := except_bind_eq_ok h
  intro k hk
  simp only [sourceKeys, List.mem_cons, List.mem_singleton, List.not_mem_nil, or_false] at hk
  rcases hk with rfl | rfl | rfl | rfl | rfl | rfl | rfl | rfl | rfl | rfl | rfl | rfl | rfl | rfl
  · rw [assertFloat64_eq_ok h0]; rfl
  · rw [assertFloat64_eq_ok h1]; rfl
  · rw [assertFloat64_eq_ok h2]; rfl
  · rw [assertFloat64_eq_ok h3]; rfl
  · rw [assertFloat64_eq_ok h4]; rfl
  · rw [assertFloat64_eq_ok h5]; rfl
  · rw [assertFloat64_eq_ok h6]; rfl
  · rw [assertFloat64_eq_ok h7]; rfl
  · rw [assertFloat64_eq_ok h8]; rfl
  · rw [assertFloat64_eq_ok h9]; rfl
  · rw [assertFloat64_eq_ok h10]; rfl
  · rw [assertFloat64_eq_ok h11]; rfl
  · rw [assertFloat64_eq_ok h12]; rfl
  · rw [assertFloat64_eq_ok h13]; rfl

/-- When some required key holds no number, evaluating the literal panics. -/
theorem fields_error_of_not_numeric {m : GoMap} (h : ¬ Numeric m) :
    ∃ fault, fields m = .error fault := by
  cases hf : fields m with
  | error fault => exact ⟨fault, rfl⟩
  | ok fs => exact absurd (numeric_of_fields_ok hf) h

theorem index_eq_number_valueAt {m : GoMap} {k : String} (h : (m.index k).kind = .float64) :
    m.index k = .number (valueAt m k) := by
  obtain ⟨x, hx⟩ := kind_eq_float64 h
  simp [valueAt, hx]

/-- On a numeric payload the literal yields the fourteen values, each under its sink key. -/
theorem fields_of_numeric {m : GoMap} (h : Numeric m) :
    fields m = .ok (sourceKeys.map fun k => (sinkName k, valueAt m k)) := by
  have g : ∀ k ∈ sourceKeys, assertFloat64 (m.index k) = .ok (valueAt m k) := by
    intro k hk
    rw [index_eq_number_valueAt (h k hk)]
    rfl
  simp only [sourceKeys, List.mem_cons, List.mem_singleton, List.not_mem_nil, or_false,
    forall_eq_or_imp, forall_eq] at g
  obtain ⟨g0, g1, g2, g3, g4, g5, g6, g7, g8, g9, g10, g11, g12, g13⟩ := g
  unfold fields
  rw [g0, g1, g2, g3, g4, g5, g6, g7, g8, g9, g10, g11, g12, g13]
  simp [sourceKeys, sinkName]
  rfl

/-- The literal reads the payload at the required keys only. -/
theorem fields_congr {m m' : GoMap} (h : ∀ k ∈ sourceKeys, m'.index k = m.index k) :
    fields m' = fields m := by
  simp only [sourceKeys, List.mem_cons, List.mem_singleton, List.not_mem_nil, or_false,
    forall_eq_or_imp, forall_eq] at h
  obtain ⟨g0, g1, g2, g3, g4, g5, g6, g7, g8, g9, g10, g11, g12, g13⟩ := h
  unfold fields
  rw [g0, g1, g2, g3, g4, g5, g6, g7, g8, g9, g10, g11, g12, g13]

theorem lookup_mapped (m : GoMap) : ∀ k ∈ sourceKeys,
    List.lookup (sinkName k) (sourceKeys.map fun k => (sinkName k, valueAt m k))
      = some (valueAt m k) := by
  intro k hk
  simp only [sourceKeys, List.mem_cons, List.mem_singleton, List.not_mem_nil, or_false] at hk
  rcases hk with rfl | rfl | rfl | rfl | rfl | rfl | rfl | rfl | rfl | rfl | rfl | rfl | rfl | rfl <;>
    simp [sourceKeys, sinkName, List.lookup]

/-! ## C1 -/

/-- C1: when the payload decodes to an object in which all fourteen required
keys hold numbers, the `fields` literal of `influxWrite` evaluates without panic
to a field set of exactly fourteen distinct keys, namely the source keys with
`domains_being_blocked` renamed to `domains_blocked`; each sink key holds the
number the payload holds at its source key; and the result depends on the
payload at the required keys only, so extra keys are ignored. -/
theorem fields_roundtrip (w : World) (payload : Bytes) (m : GoMap)
    (hdec : w.jsonDecode payload = .object m) (hnum : Numeric m) :
    ∃ fs, fields (w.jsonDecode payload).data = .ok fs ∧
      fs.length = 14 ∧
      fs.map Prod.fst = sourceKeys.map sinkName ∧
      (fs.map Prod.fst).Nodup ∧
      (∀ k ∈ sourceKeys, ∃ x, m.index k = .number x ∧ List.lookup (sinkName k) fs = some x) ∧
      (∀ k ∈ sourceKeys, k ≠ "domains_being_blocked" → sinkName k = k) ∧
      sinkName "domains_being_blocked" = "domains_blocked" ∧
      (∀ m' : GoMap, (∀ k ∈ sourceKeys, m'.index k = m.index k) → fields m' = .ok fs) := by
  refine ⟨sourceKeys.map fun k => (sinkName k, valueAt m k), ?_, ?_, ?_, ?_, ?_, ?_, ?_, ?_⟩
  · rw [hdec]; exact fields_of_numeric hnum
  · simp [sourceKeys]
  · simp [List.map_map, Function.comp_def]
  · simp [List.map_map, Function.comp_def, sourceKeys, sinkName]
  · intro k hk
    exact ⟨valueAt m k, index_eq_number_valueAt (hnum k hk), lookup_mapped m k hk⟩
  · intro k _ hne
    simp [sinkName, hne]
  · simp [sinkName]
  · intro m' hm'
    rw [fields_congr hm']
    exact fields_of_numeric hnum

/-- C1 at the end-to-end payload. -/
theorem fields_roundtrip_witness :
    e2eWorld.jsonDecode e2ePayload = .object e2eData ∧ Numeric e2eData ∧
    ∃ fs, fields (e2eWorld.jsonDecode e2ePayload).data = .ok fs ∧
      fs.length = 14 ∧
      fs.map Prod.fst = sourceKeys.map sinkName ∧
      (fs.map Prod.fst).Nodup ∧
      (∀ k ∈ sourceKeys, ∃ x, e2eData.index k = .number x ∧
        List.lookup (sinkName k) fs = some x) ∧
      (∀ k ∈ sourceKeys, k ≠ "domains_being_blocked" → sinkName k = k) ∧
      sinkName "domains_being_blocked" = "domains_blocked" ∧
      (∀ m' : GoMap, (∀ k ∈ sourceKeys, m'.index k = e2eData.index k) → fields m' = .ok fs) :=
  ⟨rfl, by decide, fields_roundtrip e2eWorld e2ePayload e2eData rfl (by decide)⟩

/-! ## Lemmas on `influxWrite` -/

/-- Every call made by `influxWrite` is a call to the sink. -/
theorem influxWrite_trace_isSink (c : Config) (w : World) (payload : Bytes) :
    ∀ e ∈ (c.influxWrite w payload).trace, e.isSink = true := by
  have hbody : ∀ e ∈ (c.influxWriteBody w payload).trace, e.isSink = true := by
    unfold Config.influxWriteBody
    simp only []
    split
    · simp [Event.isSink]
    · split
      · simp [Event.isSink]
      · split
        · simp [Event.isSink]
        · split <;> simp [Event.isSink]
  unfold Config.influxWrite
  split
  · simp [Event.isSink]
  · intro e he
    simp only [List.mem_cons, List.mem_append, List.mem_singleton, List.not_mem_nil,
      List.cons_append, or_false] at he
    rcases he with rfl | he | rfl
    · rfl
    · exact hbody e he
    · rfl

/-- The first call made by `influxWrite` is `NewHTTPClient`. -/
theorem influxWrite_trace_head (c : Config) (w : World) (payload : Bytes) :
    (c.influxWrite w payload).trace.head? = some (.newHTTPClient c.httpConfig) := by
  unfold Config.influxWrite
  split <;> rfl

/-- A payload that leaves `data` nil makes `influxWrite` panic once the sink is reached. -/
theorem influxWrite_nil_data (c : Config) (w : World) (payload : Bytes)
    (hclient : w.newHTTPClient c.httpConfig = none)
    (hping : w.ping c.Request.Timeout = none)
    (hbatch : w.newBatchPoints c.batchPointsConfig = none)
    (hdata : (w.jsonDecode payload).data = []) :
    c.influxWrite w payload =
      { trace := [.newHTTPClient c.httpConfig, .ping c.Request.Timeout,
                  .newBatchPoints c.batchPointsConfig, .close],
        result := .panicked (.interfaceConversion .nil) } := by
  simp [Config.influxWrite, Config.influxWriteBody, hclient, hping, hbatch, hdata, fields,
    GoMap.index, assertFloat64, JValue.kind, bind, Except.bind]

/-! ## C2 -/

/-- C2, refuted as stated: with a reachable sink and a payload that decodes to
the empty object (so `ads_percentage_today` is missing), `influxWrite` does not
return a validation error; it panics in the first type assertion. -/
theorem missing_key_panics :
    emptyObjectWorld.jsonDecode emptyObjectPayload = .object [] ∧
    "ads_percentage_today" ∈ sourceKeys ∧
    (GoMap.index [] "ads_percentage_today").kind = .nil ∧
    (quietConfig.influxWrite emptyObjectWorld emptyObjectPayload).result
      = .panicked (.interfaceConversion .nil) :=
  ⟨rfl, by decide, by decide, by decide⟩

/-- C2, amended: when the payload decodes to an object in which some required
key is missing or holds a non-number, `influxWrite` does not report success
(it never returns nil), no point is built and no batch is written. -/
theorem invalid_object_no_point (c : Config) (w : World) (payload : Bytes) (m : GoMap)
    (hdec : w.jsonDecode payload = .object m)
    (hbad : ∃ k ∈ sourceKeys, (m.index k).kind ≠ .float64) :
    (c.influxWrite w payload).result ≠ .returned none ∧
    ∀ e ∈ (c.influxWrite w payload).trace, e.isNewPoint = false ∧ e.isWrite = false := by
  have hnn : ¬ Numeric m := by
    obtain ⟨k, hk, hne⟩ := hbad
    exact fun hn => hne (hn k hk)
  obtain ⟨fault, hf⟩ := fields_error_of_not_numeric hnn
  have hdata : (w.jsonDecode payload).data = m := by rw [hdec]; rfl
  simp only [Config.influxWrite, Config.influxWriteBody, hdata, hf]
  cases w.newHTTPClient c.httpConfig <;> cases w.ping c.Request.Timeout <;>
    cases w.newBatchPoints c.batchPointsConfig <;>
    simp [Event.isNewPoint, Event.isWrite]

/-- C2 amended, at the empty object. -/
theorem invalid_object_no_point_witness :
    emptyObjectWorld.jsonDecode emptyObjectPayload = .object [] ∧
    (∃ k ∈ sourceKeys, (GoMap.index [] k).kind ≠ .float64) ∧
    (quietConfig.influxWrite emptyObjectWorld emptyObjectPayload).result ≠ .returned none ∧
    ∀ e ∈ (quietConfig.influxWrite emptyObjectWorld emptyObjectPayload).trace,
      e.isNewPoint = false ∧ e.isWrite = false :=
  ⟨rfl, ⟨"ads_percentage_today", by decide, by decide⟩,
    invalid_object_no_point quietConfig emptyObjectWorld emptyObjectPayload [] rfl
      ⟨"ads_percentage_today", by decide, by decide⟩⟩

/-! ## C3 -/

/-- C3, the code at a failing input: the sink is reachable and the payload is a
non-empty byte sequence that is not JSON.  The error of `Decode` is dropped,
`data` stays nil and `influxWrite` panics in the first type assertion instead of
returning an error; the deferred `Close` still runs. -/
theorem malformed_payload_panics :
    htmlPayload.length ≠ 0 ∧
    (malformedWorld.jsonDecode htmlPayload).data = [] ∧
    quietConfig.influxWrite malformedWorld htmlPayload =
      { trace := [.newHTTPClient quietConfig.httpConfig, .ping 0,
                  .newBatchPoints quietConfig.batchPointsConfig, .close],
        result := .panicked (.interfaceConversion .nil) } ∧
    (collectStats malformedWorld).outcome = .panicked (.interfaceConversion .nil) :=
  ⟨by decide, rfl, by decide, by decide⟩

/-! ## C6 -/

/-- C6: when the liveness check fails, `influxWrite` makes exactly the calls
`NewHTTPClient`, `Ping`, `Close` and returns the error of `Ping`, whatever the
payload and configuration: `Write` is not called and `Close` is called once. -/
theorem ping_failure_no_write (c : Config) (w : World) (payload : Bytes) (err : Error)
    (hclient : w.newHTTPClient c.httpConfig = none)
    (hping : w.ping c.Request.Timeout = some err) :
    c.influxWrite w payload =
      { trace := [.newHTTPClient c.httpConfig, .ping c.Request.Timeout, .close],
        result := .returned (some err) } ∧
    (∀ e ∈ (c.influxWrite w payload).trace, e.isWrite = false) ∧
    (c.influxWrite w payload).trace.count .close = 1 := by
  have h : c.influxWrite w payload =
      { trace := [.newHTTPClient c.httpConfig, .ping c.Request.Timeout, .close],
        result := .returned (some err) } := by
    simp [Config.influxWrite, Config.influxWriteBody, hclient, hping]
  rw [h]
  refine ⟨rfl, ?_, ?_⟩
  · simp [Event.isWrite]
  · simp [List.count_cons]

/-- C6 in a run where the sink is down. -/
theorem ping_failure_no_write_witness :
    sinkDownWorld.newHTTPClient quietConfig.httpConfig = none ∧
    sinkDownWorld.ping quietConfig.Request.Timeout = some "connection refused" ∧
    quietConfig.influxWrite sinkDownWorld e2ePayload =
      { trace := [.newHTTPClient quietConfig.httpConfig, .ping quietConfig.Request.Timeout,
                  .close],
        result := .returned (some "connection refused") } ∧
    (∀ e ∈ (quietConfig.influxWrite sinkDownWorld e2ePayload).trace, e.isWrite = false) ∧
    (quietConfig.influxWrite sinkDownWorld e2ePayload).trace.count .close = 1 :=
  ⟨rfl, rfl, ping_failure_no_write quietConfig sinkDownWorld e2ePayload "connection refused"
    rfl rfl⟩

/-! ## C7 -/

/-- C7: with a reachable sink (client created, liveness check passed, the
client library accepting the batch configuration and the one point that
`influxWrite` builds from the payload) and a payload
that decodes to an object with all fourteen required keys numeric,
`influxWrite` makes exactly the calls `NewHTTPClient`, `Ping`, `NewBatchPoints`,
`NewPoint`, `Write`, `Close`; the one batch written targets the configured
database with precision `s` and holds exactly one point, whose name is the
configured measurement, whose only tag is `host` with the configured host name,
whose time is the current time and whose fields are the fourteen mapped values
of the payload.  For the end-to-end payload and host tag `sensor1` the tag set
and the field set are the ones listed in the specification. -/
theorem one_batch_one_point (c : Config) (w : World) (payload : Bytes) (m : GoMap)
    (hclient : w.newHTTPClient c.httpConfig = none)
    (hping : w.ping c.Request.Timeout = none)
    (hbatch : w.newBatchPoints c.batchPointsConfig = none)
    (hpoint : ∀ fs, fields m = .ok fs → w.newPoint (c.point w fs) = none)
    (hdec : w.jsonDecode payload = .object m) (hnum : Numeric m) :
    ∃ fs : Fields, ∃ pt : Point, ∃ bp : BatchPoints,
      fields m = .ok fs ∧
      fs.map Prod.fst = sourceKeys.map sinkName ∧
      (∀ k ∈ sourceKeys, ∃ x, m.index k = .number x ∧ List.lookup (sinkName k) fs = some x) ∧
      pt = { name := c.InfluxDB.Measurement, tags := [("host", c.Hostname)], fields := fs,
             time := w.now } ∧
      bp.points = [pt] ∧
      bp.config.Database = c.InfluxDB.DbName ∧
      bp.config.Precision = "s" ∧
      c.influxWrite w payload =
        { trace := [.newHTTPClient c.httpConfig, .ping c.Request.Timeout,
                    .newBatchPoints bp.config, .newPoint pt, .write bp, .close],
          result := .returned (w.write bp) } ∧
      ((c.influxWrite w payload).trace.filter Event.isWrite = [.write bp]) ∧
      (m = e2eData → c.Hostname = "sensor1" →
        pt.tags = [("host", "sensor1")] ∧ pt.fields = e2eFields) := by
  have hf := fields_of_numeric hnum
  have hdata : (w.jsonDecode payload).data = m := by rw [hdec]; rfl
  have hrun : c.influxWrite w payload =
      { trace := [.newHTTPClient c.httpConfig, .ping c.Request.Timeout,
                  .newBatchPoints c.batchPointsConfig,
                  .newPoint (c.point w (sourceKeys.map fun k => (sinkName k, valueAt m k))),
                  .write { config := c.batchPointsConfig,
                           points := [c.point w (sourceKeys.map fun k => (sinkName k, valueAt m k))] },
                  .close],
        result := .returned (w.write
          { config := c.batchPointsConfig,
            points := [c.point w (sourceKeys.map fun k => (sinkName k, valueAt m k))] }) } := by
    unfold Config.influxWrite Config.influxWriteBody
    have hpt := hpoint (sourceKeys.map fun k => (sinkName k, valueAt m k)) hf
    unfold Config.point at hpt
    simp only [hclient, hping, hbatch, hdata, hf, hpt]
    rfl
  refine ⟨sourceKeys.map fun k => (sinkName k, valueAt m k),
    c.point w (sourceKeys.map fun k => (sinkName k, valueAt m k)),
    { config := c.batchPointsConfig,
      points := [c.point w (sourceKeys.map fun k => (sinkName k, valueAt m k))] },
    hf, ?_, ?_, rfl, rfl, rfl, rfl, hrun, ?_, ?_⟩
  · simp [List.map_map, Function.comp_def]
  · intro k hk
    exact ⟨valueAt m k, index_eq_number_valueAt (hnum k hk), lookup_mapped m k hk⟩
  · rw [hrun]
    simp [List.filter, Event.isWrite]
  · intro hm hh
    subst hm
    refine ⟨by simp [Config.point, hh], ?_⟩
    have h2 : fields e2eData = .ok e2eFields := rfl
    rw [hf] at h2
    exact Except.ok.inj h2

/-- C7 in the end-to-end scenario, against a sink whose `NewPoint` rejects an
empty field set. -/
theorem one_batch_one_point_witness :
    strictSinkWorld.newHTTPClient quietConfig.httpConfig = none ∧
    strictSinkWorld.ping quietConfig.Request.Timeout = none ∧
    strictSinkWorld.newBatchPoints quietConfig.batchPointsConfig = none ∧
    (∀ fs, fields e2eData = .ok fs →
      strictSinkWorld.newPoint (quietConfig.point strictSinkWorld fs) = none) ∧
    strictSinkWorld.jsonDecode e2ePayload = .object e2eData ∧ Numeric e2eData ∧
    ∃ fs : Fields, ∃ pt : Point, ∃ bp : BatchPoints,
      fields e2eData = .ok fs ∧
      fs.map Prod.fst = sourceKeys.map sinkName ∧
      (∀ k ∈ sourceKeys, ∃ x, e2eData.index k = .number x ∧
        List.lookup (sinkName k) fs = some x) ∧
      pt = { name := quietConfig.InfluxDB.Measurement, tags := [("host", quietConfig.Hostname)],
             fields := fs, time := strictSinkWorld.now } ∧
      bp.points = [pt] ∧
      bp.config.Database = quietConfig.InfluxDB.DbName ∧
      bp.config.Precision = "s" ∧
      quietConfig.influxWrite strictSinkWorld e2ePayload =
        { trace := [.newHTTPClient quietConfig.httpConfig, .ping quietConfig.Request.Timeout,
                    .newBatchPoints bp.config, .newPoint pt, .write bp, .close],
          result := .returned (strictSinkWorld.write bp) } ∧
      ((quietConfig.influxWrite strictSinkWorld e2ePayload).trace.filter Event.isWrite = [.write bp]) ∧
      (e2eData = e2eData → quietConfig.Hostname = "sensor1" →
        pt.tags = [("host", "sensor1")] ∧ pt.fields = e2eFields) :=
  have hpoint : ∀ fs, fields e2eData = .ok fs →
      strictSinkWorld.newPoint (quietConfig.point strictSinkWorld fs) = none := by
    intro fs hfs
    have h2 : fields e2eData = .ok e2eFields := rfl
    rw [hfs] at h2
    rw [Except.ok.inj h2]
    rfl
  ⟨rfl, rfl, rfl, hpoint, rfl, by decide,
    one_batch_one_point quietConfig strictSinkWorld e2ePayload e2eData rfl rfl rfl hpoint rfl
      (by decide)⟩

/-! ## C10 -/

/-- C10: the batch configuration built by `influxWrite` has the configured
database, precision `s` and an empty retention policy, and replacing
`InfluxDB.RetentionPolicy` in the configuration by any other value changes
neither that batch configuration nor the calls and the result of `influxWrite`. -/
theorem retention_policy_unused (c : Config) (rp : String) (w : World) (payload : Bytes) :
    c.batchPointsConfig.Database = c.InfluxDB.DbName ∧
    c.batchPointsConfig.Precision = "s" ∧
    c.batchPointsConfig.RetentionPolicy = "" ∧
    Config.batchPointsConfig { c with InfluxDB := { c.InfluxDB with RetentionPolicy := rp } }
      = c.batchPointsConfig ∧
    Config.influxWrite { c with InfluxDB := { c.InfluxDB with RetentionPolicy := rp } } w payload
      = c.influxWrite w payload :=
  ⟨rfl, rfl, rfl, rfl, rfl⟩

/-! ## Lemmas on `getStats` and `collectStats` -/

/-- The calls made by `getStats` are not calls to the sink and do not load the `.env` file. -/
theorem getStats_trace (c : Config) (w : World) :
    ∀ e ∈ (c.getStats w).trace, e.isSink = false ∧ e ≠ .dotenvLoad := by
  unfold Config.getStats
  simp only []
  split
  · simp [Event.isSink]
  · split <;> simp [Event.isSink]

/-- One call of `collectStats` loads the `.env` file exactly once. -/
theorem collectStats_count_load (w : World) :
    (collectStats w).trace.count .dotenvLoad = 1 := by
  have hsink : ∀ (c : Config) (p : Bytes), (c.influxWrite w p).trace.count .dotenvLoad = 0 := by
    intro c p
    rw [List.count_eq_zero]
    intro hmem
    have := influxWrite_trace_isSink c w p _ hmem
    simp [Event.isSink] at this
  have hget : ∀ c : Config, (c.getStats w).trace.count .dotenvLoad = 0 := by
    intro c
    rw [List.count_eq_zero]
    intro hmem
    exact (getStats_trace c w _ hmem).2 rfl
  unfold collectStats
  split
  · simp
  · simp only []
    split
    · simp [List.count_cons, List.count_append, hsink, hget]
    · simp [List.count_cons, hget]

/-! ## C4 -/

/-- C4: in a cycle whose fetch fails (the GET returns an error, or the body
cannot be read), `getStats` returns the empty slice, `collectStats` returns
after `getStats` without calling `influxWrite`, and the cycle makes no call to
the sink: no connection is opened and nothing is written. -/
theorem failed_fetch_no_write (w : World) (c : Config) (hc : newConfig w = .ok c)
    (hfail : (∃ err, w.httpGet c.Request c.statsURL = .failed err) ∨
      (∃ status body err, w.httpGet c.Request c.statsURL = .response status body (some err))) :
    (c.getStats w).body = [] ∧
    collectStats w = { trace := .dotenvLoad :: (c.getStats w).trace, outcome := .done } ∧
    (∀ e ∈ (collectStats w).trace, e.isSink = false) ∧
    (∀ cfg, Event.newHTTPClient cfg ∉ (collectStats w).trace) ∧
    (∀ bp, Event.write bp ∉ (collectStats w).trace) := by
  have hbody : (c.getStats w).body = [] := by
    unfold Config.getStats
    rcases hfail with ⟨err, h⟩ | ⟨status, body, err, h⟩
    · simp only [Config.statsURL] at h
      simp only [h]
    · simp only [Config.statsURL] at h
      simp only [h]
  have hcyc : collectStats w = { trace := .dotenvLoad :: (c.getStats w).trace, outcome := .done } := by
    unfold collectStats
    simp [hc, hbody]
  have hsink : ∀ e ∈ (collectStats w).trace, e.isSink = false := by
    rw [hcyc]
    intro e he
    simp only [List.mem_cons] at he
    rcases he with rfl | he
    · rfl
    · exact (getStats_trace c w e he).1
  refine ⟨hbody, hcyc, hsink, ?_, ?_⟩
  · intro cfg hmem
    have := hsink _ hmem
    simp [Event.isSink] at this
  · intro bp hmem
    have := hsink _ hmem
    simp [Event.isSink] at this

/-- C4 in a run where the source refuses the connection. -/
theorem failed_fetch_no_write_witness :
    newConfig quietWorld = .ok quietConfig ∧
    quietWorld.httpGet quietConfig.Request quietConfig.statsURL = .failed "connection refused" ∧
    (quietConfig.getStats quietWorld).body = [] ∧
    collectStats quietWorld =
      { trace := .dotenvLoad :: (quietConfig.getStats quietWorld).trace, outcome := .done } ∧
    (∀ e ∈ (collectStats quietWorld).trace, e.isSink = false) ∧
    (∀ cfg, Event.newHTTPClient cfg ∉ (collectStats quietWorld).trace) ∧
    (∀ bp, Event.write bp ∉ (collectStats quietWorld).trace) :=
  ⟨rfl, rfl, failed_fetch_no_write quietWorld quietConfig rfl (Or.inl ⟨_, rfl⟩)⟩

/-! ## C5 -/

/-- C5, refuted as stated: the source answers with status 500 and a non-empty
body.  `getStats` returns that body, `collectStats` passes it to `influxWrite`,
and a point built from it is written to the sink. -/
theorem server_error_body_is_written :
    serverErrorWorld.httpGet quietConfig.Request quietConfig.statsURL
      = .response 500 e2ePayload none ∧
    (quietConfig.getStats serverErrorWorld).body = e2ePayload ∧
    collectStats serverErrorWorld =
      { trace := [.dotenvLoad, .httpGet "https://localhost:8080", .bodyClose] ++
          (quietConfig.influxWrite serverErrorWorld e2ePayload).trace,
        outcome := .done } ∧
    (collectStats serverErrorWorld).trace.filter Event.isWrite =
      [.write { config := quietConfig.batchPointsConfig,
                points := [quietConfig.point serverErrorWorld e2eFields] }] :=
  ⟨rfl, rfl, rfl, rfl⟩

/-- C5, amended: when the GET returns a response whose body is read without
error, `getStats` returns that body whatever the status code; `collectStats`
stops after `getStats` when the body is empty and otherwise calls `influxWrite`
with the body. -/
theorem status_not_inspected (w : World) (c : Config) (status : Nat) (body : Bytes)
    (hc : newConfig w = .ok c)
    (hget : w.httpGet c.Request c.statsURL = .response status body none) :
    (c.getStats w).body = body ∧
    (body = [] →
      collectStats w =
        { trace := [.dotenvLoad, .httpGet c.statsURL, .bodyClose], outcome := .done }) ∧
    (body ≠ [] →
      (collectStats w).trace =
        [.dotenvLoad, .httpGet c.statsURL, .bodyClose] ++ (c.influxWrite w body).trace) := by
  have hstats : c.getStats w =
      { trace := [.httpGet c.statsURL, .bodyClose], body := body } := by
    unfold Config.getStats
    simp only [Config.statsURL] at hget
    simp only [hget]
    rfl
  refine ⟨by rw [hstats], ?_, ?_⟩
  · intro hb
    subst hb
    unfold collectStats
    simp [hc, hstats]
  · intro hb
    have hlen : body.length ≠ 0 := by
      intro h0
      exact hb (List.length_eq_zero.mp h0)
    unfold collectStats
    simp [hc, hstats, hlen]

/-- C5 amended, at the status 500 response. -/
theorem status_not_inspected_witness :
    newConfig serverErrorWorld = .ok quietConfig ∧
    serverErrorWorld.httpGet quietConfig.Request quietConfig.statsURL
      = .response 500 e2ePayload none ∧
    (quietConfig.getStats serverErrorWorld).body = e2ePayload ∧
    (e2ePayload = [] →
      collectStats serverErrorWorld =
        { trace := [.dotenvLoad, .httpGet quietConfig.statsURL, .bodyClose],
          outcome := .done }) ∧
    (e2ePayload ≠ [] →
      (collectStats serverErrorWorld).trace =
        [.dotenvLoad, .httpGet quietConfig.statsURL, .bodyClose] ++
          (quietConfig.influxWrite serverErrorWorld e2ePayload).trace) :=
  ⟨rfl, rfl, status_not_inspected serverErrorWorld quietConfig 500 e2ePayload rfl rfl⟩

/-! ## C8 -/

theorem newConfig_isOk {w : World} (h : w.dotenvLoad = none) : ∃ c, newConfig w = .ok c := by
  unfold newConfig
  rw [h]
  exact ⟨_, rfl⟩

theorem newConfig_error {w : World} {err : Error} (h : w.dotenvLoad = some err) :
    newConfig w = .error err := by
  unfold newConfig
  rw [h]

/-- A cycle whose configuration cannot be resolved ends the process at once. -/
theorem collectStats_fatal {w : World} {err : Error} (h : w.dotenvLoad = some err) :
    collectStats w = { trace := [.dotenvLoad], outcome := .fatal err } := by
  unfold collectStats
  rw [newConfig_error h]

/-- Cycles that all return are run one after the other, and further ticks follow them. -/
theorem runCycles_append (recovers : Bool) (ticks rest : List World)
    (hdone : ∀ w ∈ ticks, (collectStats w).outcome = .done) :
    runCycles recovers (ticks ++ rest) =
      { trace := (runCycles recovers ticks).trace ++ (runCycles recovers rest).trace,
        exit := (runCycles recovers rest).exit } := by
  induction ticks with
  | nil => simp [runCycles]
  | cons w ticks ih =>
    have hw : (collectStats w).outcome = .done := hdone w (List.mem_cons_self _ _)
    have ih2 := ih (fun v hv => hdone v (List.mem_cons_of_mem _ hv))
    simp [runCycles, hw, ih2, List.append_assoc]

/-- Cycles that all return load the `.env` file once each. -/
theorem runCycles_count (recovers : Bool) (ticks : List World)
    (hdone : ∀ w ∈ ticks, (collectStats w).outcome = .done) :
    (runCycles recovers ticks).trace.count .dotenvLoad = ticks.length ∧
    (runCycles recovers ticks).exit = .interrupted := by
  induction ticks with
  | nil => simp [runCycles]
  | cons w ticks ih =>
    have hw : (collectStats w).outcome = .done := hdone w (List.mem_cons_self _ _)
    have ih2 := ih (fun v hv => hdone v (List.mem_cons_of_mem _ hv))
    simp [runCycles, hw, ih2, List.count_append, collectStats_count_load, Nat.add_comm]

/-- C8, refuted as stated: startup succeeds, and the first cycle resolves the
configuration again.  When the `.env` file has disappeared by then, the cycle
ends the process; when the environment names another Pi-hole host by then, the
cycle queries that host and not the one of the snapshot taken at startup. -/
theorem cycle_resolves_config_again :
    newConfig quietWorld = .ok quietConfig ∧
    main false quietWorld [brokenEnvWorld] =
      { trace := [.dotenvLoad, .dotenvLoad],
        exit := .fatal "open .env: no such file or directory" } ∧
    quietConfig.statsURL = "https://localhost:8080" ∧
    main false quietWorld [movedWorld] =
      { trace := [.dotenvLoad, .dotenvLoad, .httpGet "https://pi.hole:8080"],
        exit := .interrupted } :=
  ⟨rfl, by decide, by decide, by decide⟩

/-- C8, amended: `main` resolves the configuration once before the scheduler
starts, and every cycle resolves it once more: after startup and `n` cycles that
returned, the `.env` file has been loaded `1 + n` times.  The snapshot taken at
startup is not handed to the cycles (another startup world that loads gives the
same run).  A resolution failure at startup ends the process before any cycle,
and a resolution failure in a later cycle ends the process at that cycle, before
any fetch or write of that cycle. -/
theorem config_resolved_every_cycle (recovers : Bool) (w0 : World) (ticks : List World)
    (h0 : w0.dotenvLoad = none)
    (hdone : ∀ w ∈ ticks, (collectStats w).outcome = .done) :
    (main recovers w0 ticks).trace.count .dotenvLoad = 1 + ticks.length ∧
    (main recovers w0 ticks).exit = .interrupted ∧
    (∀ w0' : World, w0'.dotenvLoad = none → main recovers w0' ticks = main recovers w0 ticks) ∧
    (∀ (w : World) (err : Error) (more : List World), w.dotenvLoad = some err →
      main recovers w more = { trace := [.dotenvLoad], exit := .fatal err }) ∧
    (∀ (w : World) (err : Error) (more : List World), w.dotenvLoad = some err →
      main recovers w0 (ticks ++ w :: more) =
        { trace := (main recovers w0 ticks).trace ++ [.dotenvLoad], exit := .fatal err }) := by
  obtain ⟨c0, hc0⟩ := newConfig_isOk h0
  have hmain : ∀ ts, main recovers w0 ts =
      { trace := .dotenvLoad :: (runCycles recovers ts).trace,
        exit := (runCycles recovers ts).exit } := by
    intro ts
    unfold main
    rw [hc0]
  obtain ⟨hcount, hexit⟩ := runCycles_count recovers ticks hdone
  refine ⟨?_, ?_, ?_, ?_, ?_⟩
  · rw [hmain]
    simp [List.count_cons, hcount, Nat.add_comm]
  · rw [hmain]
    exact hexit
  · intro w0' h0'
    obtain ⟨c0', hc0'⟩ := newConfig_isOk h0'
    rw [hmain]
    unfold main
    rw [hc0']
  · intro w err more hw
    unfold main
    rw [newConfig_error hw]
  · intro w err more hw
    rw [hmain, hmain, runCycles_append recovers ticks (w :: more) hdone]
    simp [runCycles, collectStats_fatal hw]

/-- C8 amended, for a startup followed by one cycle whose fetch fails. -/
theorem config_resolved_every_cycle_witness :
    quietWorld.dotenvLoad = none ∧
    (∀ w ∈ [quietWorld], (collectStats w).outcome = .done) ∧
    (main false quietWorld [quietWorld]).trace.count .dotenvLoad = 1 + [quietWorld].length ∧
    (main false quietWorld [quietWorld]).exit = .interrupted ∧
    (∀ w0' : World, w0'.dotenvLoad = none →
      main false w0' [quietWorld] = main false quietWorld [quietWorld]) ∧
    (∀ (w : World) (err : Error) (more : List World), w.dotenvLoad = some err →
      main false w more = { trace := [.dotenvLoad], exit := .fatal err }) ∧
    (∀ (w : World) (err : Error) (more : List World), w.dotenvLoad = some err →
      main false quietWorld ([quietWorld] ++ w :: more) =
        { trace := (main false quietWorld [quietWorld]).trace ++ [.dotenvLoad],
          exit := .fatal err }) :=
  ⟨rfl, by simp; decide,
    config_resolved_every_cycle false quietWorld [quietWorld] rfl (by simp; decide)⟩

/-! ## C9 -/

/-- The client built by `newConfig` has no time limit, whatever the environment. -/
theorem newConfig_timeout {w : World} {c : Config} (h : newConfig w = .ok c) :
    c.Request.Timeout = 0 ∧ c.RequestTimeout = w.enviroGetInt "REQUEST_TIMEOUT" 15 := by
  unfold newConfig at h
  split at h
  · cases h
  · cases h
    exact ⟨rfl, rfl⟩

/-- C9, the code at a failing input: with no variable set, `newConfig` resolves
`RequestTimeout` to 15 but builds the HTTP client with `Timeout` 0, which is not
15 seconds and means no time limit; that 0 is what `influxWrite` passes on as
the timeout of the sink connection and of the liveness check. -/
theorem request_timeout_not_applied :
    newConfig quietWorld = .ok quietConfig ∧
    quietConfig.RequestTimeout = 15 ∧
    quietConfig.Request.Timeout = 0 ∧
    quietConfig.Request.Timeout ≠ Second * quietConfig.RequestTimeout ∧
    quietConfig.httpConfig.Timeout = 0 ∧
    (quietConfig.influxWrite sinkDownWorld e2ePayload).trace =
      [.newHTTPClient { Addr := "https://localhost:8086", Username := "telegraf",
                        Password := "telegraf", Timeout := 0 },
       .ping 0, .close] :=
  ⟨rfl, rfl, rfl, by decide, rfl, by decide⟩

end PiholeStats
